import Mathlib

/-!
Verification of the Article Discovery and Normalization Pipeline of the
news-agent repository.  The definitions below are a shallow embedding of
`src/v1/src/tools/news_retriever.py` (link extraction, URL normalization,
date parsing, arxiv listing extraction, article text extraction) and of
`src/src/tools/articles_database.py` (the persistent article record store:
`update`, `is_article_already_fetched`, `get_new_articles`,
`get_all_articles`, `__safe_filename`).  Python strings are modeled as
`String` or `List Char`; Python `None` for optional dictionary values is
modeled as `Option.none`; a raised exception is modeled as `Except.error`
carrying the exception name.
-/

namespace NewsAgent

/-! ## Character helpers -/

/-- ASCII decimal digit test, modeling the digits matched by the patterns
built by Python strptime and by the regular expressions in the source. -/
def is_digit (c : Char) : Bool :=
  48 ≤ c.toNat && c.toNat ≤ 57

/-- Whitespace matched by a whitespace character class in a compiled
pattern: space, tab, newline, vertical tab, form feed, carriage return. -/
def is_fmt_space (c : Char) : Bool :=
  c.toNat == 32 || c.toNat == 9 || c.toNat == 10 || c.toNat == 11 ||
  c.toNat == 12 || c.toNat == 13

/-- Whitespace stripped by Python str.strip with no argument (ASCII
whitespace plus NEL and NBSP, the cases reachable from scraped text). -/
def is_py_space (c : Char) : Bool :=
  is_fmt_space c || c.toNat == 28 || c.toNat == 29 || c.toNat == 30 ||
  c.toNat == 31 || c.toNat == 133 || c.toNat == 160

/-- Python str.startswith. -/
def py_starts_with (s pre : String) : Bool :=
  pre.data.isPrefixOf s.data

/-- Python slicing from index one to the end. -/
def py_drop1 (s : String) : String :=
  String.mk (s.data.drop 1)

/-- Python str.strip with no argument. -/
def py_strip (cs : List Char) : List Char :=
  ((cs.dropWhile is_py_space).reverse.dropWhile is_py_space).reverse

/-- Python str.strip with an explicit set of characters to remove. -/
def py_strip_chars (bad : List Char) (cs : List Char) : List Char :=
  ((cs.dropWhile (bad.contains ·)).reverse.dropWhile (bad.contains ·)).reverse

/-- Python str.replace where the pattern is a single character: charwise
substitution. -/
def py_replace1 (a b : Char) (cs : List Char) : List Char :=
  cs.map (fun c => if c = a then b else c)

/-- Python str.replace with a single-character pattern and empty
replacement: removal of every occurrence of the character. -/
def py_remove1 (a : Char) (cs : List Char) : List Char :=
  cs.filter (fun c => c ≠ a)

/-- Numeric value of a run of decimal digits (Python int on a digit
string). -/
def digits_val (ds : List Char) : Nat :=
  ds.foldl (fun a c => a * 10 + (c.toNat - 48)) 0

/-- Decimal digit characters of a natural number, zero padded to the
given width (the output style of strftime for the fields used here). -/
def nat_digits (width n : Nat) : List Char :=
  (Nat.toDigits 10 n).leftpad width (Char.ofNat 48)

/-! ## Gregorian calendar (model of the datetime library) -/

def is_leap (y : Nat) : Bool :=
  (y % 4 == 0 && y % 100 != 0) || y % 400 == 0

def days_in_month (y m : Nat) : Nat :=
  if m == 2 then (if is_leap y then 29 else 28)
  else if m == 4 || m == 6 || m == 9 || m == 11 then 30
  else 31

/-- Validity of a Gregorian date, as enforced by the datetime constructor
(years 1 to 9999). -/
def is_valid_date (y m d : Nat) : Bool :=
  1 ≤ y && y ≤ 9999 && 1 ≤ m && m ≤ 12 && 1 ≤ d && d ≤ days_in_month y m

/-- Gregorian date of a day count, where day zero is March 1 of year 0
(standard civil-from-days conversion; used to model date arithmetic of
the datetime library). -/
def civil_from_days (z : Nat) : Nat × Nat × Nat :=
  let era := z / 146097
  let doe := z % 146097
  let yoe := (doe - doe / 1460 + doe / 36524 - doe / 146096) / 365
  let y := yoe + era * 400
  let doy := doe - (365 * yoe + yoe / 4 - yoe / 100)
  let mp := (5 * doy + 2) / 153
  let d := doy - (153 * mp + 2) / 5 + 1
  let m := if mp < 10 then mp + 3 else mp - 9
  (if m ≤ 2 then y + 1 else y, m, d)

/-- strftime with the pattern year dash month dash day on a date triple. -/
def iso_of_date (ymd : Nat × Nat × Nat) : String :=
  String.mk (nat_digits 4 ymd.1 ++ [Char.ofNat 45] ++ nat_digits 2 ymd.2.1 ++
    [Char.ofNat 45] ++ nat_digits 2 ymd.2.2)

/-- strftime of a day count (day zero is March 1 of year 0). -/
def iso_of_day_number (z : Nat) : String :=
  iso_of_date (civil_from_days z)

/-! ## Models of datetime.strptime for the formats used by the source -/

def month_full_names : List (List Char) :=
  ["january", "february", "march", "april", "may", "june", "july",
   "august", "september", "october", "november", "december"].map String.data

def month_abbrev_names : List (List Char) :=
  ["jan", "feb", "mar", "apr", "may", "jun", "jul", "aug", "sep", "oct",
   "nov", "dec"].map String.data

def weekday_abbrev_names : List (List Char) :=
  ["mon", "tue", "wed", "thu", "fri", "sat", "sun"].map String.data

/-- Case insensitive lookup of a name of the list as a prefix of the
input; returns the one-based index of the matching name and the rest of
the input (strptime matches names case insensitively). -/
def eat_name (names : List (List Char)) (i : Nat) (cs : List Char) :
    Option (Nat × List Char) :=
  match names with
  | [] => none
  | n :: rest =>
      if n.isPrefixOf (cs.map Char.toLower) then some (i, cs.drop n.length)
      else eat_name rest (i + 1) cs

/-- One or more whitespace characters (a whitespace run in a strptime
format matches one or more whitespace characters of the input). -/
def eat_spaces1 (cs : List Char) : Option (List Char) :=
  match cs with
  | c :: rest => if is_fmt_space c then some (rest.dropWhile is_fmt_space) else none
  | [] => none

/-- A single expected literal character. -/
def eat_char (c : Char) (cs : List Char) : Option (List Char) :=
  match cs with
  | c0 :: rest => if c0 = c then some rest else none
  | [] => none

/-- A day field: one or two digits with value between 1 and 31. -/
def eat_day (cs : List Char) : Option (Nat × List Char) :=
  let p := cs.span is_digit
  if p.1 ≠ [] && p.1.length ≤ 2 && 1 ≤ digits_val p.1 && digits_val p.1 ≤ 31 then
    some (digits_val p.1, p.2)
  else none

/-- A numeric month field: one or two digits with value between 1 and 12. -/
def eat_month_num (cs : List Char) : Option (Nat × List Char) :=
  let p := cs.span is_digit
  if p.1 ≠ [] && p.1.length ≤ 2 && 1 ≤ digits_val p.1 && digits_val p.1 ≤ 12 then
    some (digits_val p.1, p.2)
  else none

/-- A year field: exactly four digits. -/
def eat_year4 (cs : List Char) : Option (Nat × List Char) :=
  let p := cs.span is_digit
  if p.1.length == 4 then some (digits_val p.1, p.2) else none

/-- strptime with format full-month-name day comma year.  The whole
input must be consumed and the resulting date must be valid. -/
def strptime_long_month (cs : List Char) : Option (Nat × Nat × Nat) :=
  match eat_name month_full_names 1 cs with
  | none => none
  | some (m, r1) =>
    match eat_spaces1 r1 with
    | none => none
    | some r2 =>
      match eat_day r2 with
      | none => none
      | some (d, r3) =>
        match eat_char (Char.ofNat 44) r3 with
        | none => none
        | some r4 =>
          match eat_spaces1 r4 with
          | none => none
          | some r5 =>
            match eat_year4 r5 with
            | some (y, []) => if is_valid_date y m d then some (y, m, d) else none
            | _ => none

/-- strptime with format abbreviated-month-name day comma year. -/
def strptime_abbrev_month (cs : List Char) : Option (Nat × Nat × Nat) :=
  match eat_name month_abbrev_names 1 cs with
  | none => none
  | some (m, r1) =>
    match eat_spaces1 r1 with
    | none => none
    | some r2 =>
      match eat_day r2 with
      | none => none
      | some (d, r3) =>
        match eat_char (Char.ofNat 44) r3 with
        | none => none
        | some r4 =>
          match eat_spaces1 r4 with
          | none => none
          | some r5 =>
            match eat_year4 r5 with
            | some (y, []) => if is_valid_date y m d then some (y, m, d) else none
            | _ => none

/-- strptime with format month dot day dot year. -/
def strptime_dotted (cs : List Char) : Option (Nat × Nat × Nat) :=
  match eat_month_num cs with
  | none => none
  | some (m, r1) =>
    match eat_char (Char.ofNat 46) r1 with
    | none => none
    | some r2 =>
      match eat_day r2 with
      | none => none
      | some (d, r3) =>
        match eat_char (Char.ofNat 46) r3 with
        | none => none
        | some r4 =>
          match eat_year4 r4 with
          | some (y, []) => if is_valid_date y m d then some (y, m, d) else none
          | _ => none

/-- strptime with format day slash month slash year. -/
def strptime_slashed (cs : List Char) : Option (Nat × Nat × Nat) :=
  match eat_day cs with
  | none => none
  | some (d, r1) =>
    match eat_char (Char.ofNat 47) r1 with
    | none => none
    | some r2 =>
      match eat_month_num r2 with
      | none => none
      | some (m, r3) =>
        match eat_char (Char.ofNat 47) r3 with
        | none => none
        | some r4 =>
          match eat_year4 r4 with
          | some (y, []) => if is_valid_date y m d then some (y, m, d) else none
          | _ => none

/-- strptime with format weekday-abbreviation comma day month-abbreviation
year, used on the arxiv section headings (the weekday is parsed but not
checked against the date, as in the library). -/
def strptime_weekday_line (cs : List Char) : Option (Nat × Nat × Nat) :=
  match eat_name weekday_abbrev_names 1 cs with
  | none => none
  | some (_, r0) =>
    match eat_char (Char.ofNat 44) r0 with
    | none => none
    | some r1 =>
      match eat_spaces1 r1 with
      | none => none
      | some r2 =>
        match eat_day r2 with
        | none => none
        | some (d, r3) =>
          match eat_spaces1 r3 with
          | none => none
          | some r4 =>
            match eat_name month_abbrev_names 1 r4 with
            | none => none
            | some (m, r5) =>
              match eat_spaces1 r5 with
              | none => none
              | some r6 =>
                match eat_year4 r6 with
                | some (y, []) => if is_valid_date y m d then some (y, m, d) else none
                | _ => none

/-- re.search for the pattern digits space g i o r n i space f a: leftmost
digit run directly followed by the literal text, returning the numeric
value of the run (the source then re-extracts that run with a digit
search inside the matched text). -/
def giorni_search : List Char → Option Nat
  | [] => none
  | c :: rest =>
      if is_digit c then
        let p := (c :: rest).span is_digit
        if ("giorni fa".data.cons (Char.ofNat 32)).isPrefixOf p.2 then
          some (digits_val p.1)
        else giorni_search rest
      else giorni_search rest

/-- The date parsing loop of parse_website_for_article_links, lines 526
to 542 of news_retriever.py: the formats are tried in order
long-month, abbreviated-month, dotted, slashed; when a format raises,
the except branch searches the text for the relative giorni-fa pattern
and, on a match, returns the current date minus that many days;
otherwise the next format is tried.  The current date is a day count
(day zero is March 1 of year 0).  This variant computes the relative
date with truncating subtraction and is the version embedded in the
extractor model; strptime_chain_checked below also models the
OverflowError the library raises for out-of-range day counts, and the
two agree on every input where no error is raised (proved with claim
C6). -/
def strptime_chain (today : Nat) (cs : List Char) :
    List (List Char → Option (Nat × Nat × Nat)) → Option String
  | [] => none
  | f :: rest =>
    match f cs with
    | some d => some (iso_of_date d)
    | none =>
      match giorni_search cs with
      | some n => some (iso_of_day_number (today - n))
      | none => strptime_chain today cs rest

/-- Parsing of the visible text of a date element (the body of the
formats loop of the source), truncating variant. -/
def parse_date_text (today : Nat) (s : String) : Option String :=
  strptime_chain today s.data
    [strptime_long_month, strptime_abbrev_month, strptime_dotted, strptime_slashed]

/-- The day count of January 1 of year 1 (the smallest datetime value)
when day zero is March 1 of year 0. -/
def min_datetime_day : Nat := 306

/-- The largest magnitude of days a timedelta accepts. -/
def max_timedelta_days : Nat := 999999999

/-- The date parsing loop, lines 526 to 542, with the overflow behavior
of the giorni branch modeled faithfully: the source computes
datetime.now() minus timedelta(days equal to N) inside a handler that
catches only ValueError; timedelta rejects magnitudes above 999999999
days and a result before January 1 of year 1 is out of range for
datetime, and either condition raises an OverflowError that propagates
uncaught. -/
def strptime_chain_checked (today : Nat) (cs : List Char) :
    List (List Char → Option (Nat × Nat × Nat)) → Except String (Option String)
  | [] => Except.ok none
  | f :: rest =>
    match f cs with
    | some d => Except.ok (some (iso_of_date d))
    | none =>
      match giorni_search cs with
      | some n =>
          if max_timedelta_days < n ∨ today < n + min_datetime_day then
            Except.error "OverflowError"
          else Except.ok (some (iso_of_day_number (today - n)))
      | none => strptime_chain_checked today cs rest

/-- Parsing of the visible text of a date element with the overflow of
the relative-date computation modeled. -/
def parse_date_text_checked (today : Nat) (s : String) :
    Except String (Option String) :=
  strptime_chain_checked today s.data
    [strptime_long_month, strptime_abbrev_month, strptime_dotted, strptime_slashed]

/-! ## HTML documents

A parsed document is a tree of element nodes and text nodes.  The tree
is given as a mutual inductive so that every traversal below is
structurally recursive (and therefore computes inside the kernel). -/

mutual
inductive Html where
  | text (s : String) : Html
  | elem (tag : String) (classes : List String)
      (attrs : List (String × String)) (children : HtmlList) : Html
inductive HtmlList where
  | nil : HtmlList
  | cons (h : Html) (t : HtmlList) : HtmlList
end

/-- Build an HtmlList from a list literal. -/
def hl : List Html → HtmlList
  | [] => HtmlList.nil
  | h :: t => HtmlList.cons h (hl t)

/-- Attribute lookup (tag.get of BeautifulSoup, None when absent). -/
def get_attr (attrs : List (String × String)) (name : String) : Option String :=
  match attrs with
  | [] => none
  | p :: rest => if p.1 == name then some p.2 else get_attr rest name

mutual
/-- All descendant element nodes of a node satisfying the predicate, in
document order (find_all of BeautifulSoup; the node itself is not a
candidate). -/
def find_all_node (p : String → List String → List (String × String) → Bool) :
    Html → List Html
  | Html.text _ => []
  | Html.elem _ _ _ ch => find_all_list p ch
def find_all_list (p : String → List String → List (String × String) → Bool) :
    HtmlList → List Html
  | HtmlList.nil => []
  | HtmlList.cons h t =>
      (match h with
       | Html.text _ => []
       | Html.elem tag cls attrs _ => if p tag cls attrs then [h] else []) ++
      find_all_node p h ++ find_all_list p t
end

/-- find of BeautifulSoup: the first matching descendant element. -/
def find_first (p : String → List String → List (String × String) → Bool)
    (n : Html) : Option Html :=
  (find_all_node p n).head?

mutual
/-- The text content of a node: all strings of descendant text nodes, in
document order. -/
def strings_node : Html → List (List Char)
  | Html.text s => [s.data]
  | Html.elem _ _ _ ch => strings_list ch
def strings_list : HtmlList → List (List Char)
  | HtmlList.nil => []
  | HtmlList.cons h t => strings_node h ++ strings_list t
end

/-- get_text of BeautifulSoup: the descendant strings joined with the
separator; with strip, each string is stripped first and the ones that
become empty are dropped. -/
def get_text (sep : List Char) (strip : Bool) (n : Html) : List Char :=
  let ss := strings_node n
  let ss := if strip then (ss.map py_strip).filter (· ≠ []) else ss
  List.intercalate sep ss

/-- get_text with strip and no separator, as used for titles and dates. -/
def get_text_strip (n : Html) : String :=
  String.mk (get_text [] true n)

/-- The tag name of an element node (empty for a text node). -/
def html_tag : Html → String
  | Html.text _ => ""
  | Html.elem t _ _ _ => t

/-- The class list of an element node. -/
def html_classes : Html → List String
  | Html.text _ => []
  | Html.elem _ c _ _ => c

/-- The attribute list of an element node. -/
def html_attrs : Html → List (String × String)
  | Html.text _ => []
  | Html.elem _ _ a _ => a

/-- Class matching of BeautifulSoup for a string selector: the selector
equals one of the element classes, or equals the whole space-joined
class attribute (the multi-class selector of the deepmind rule). -/
def class_matches_str (classes : List String) (s : String) : Bool :=
  classes.contains s || String.intercalate " " classes == s

/-! ## The generic link extractor (parse_website_for_article_links) -/

/-- The shapes a class selector argument takes in the source: absent
(None), a single string, a list of alternatives, or the one predicate
used (a lambda requiring every class of a fixed list to be present). -/
inductive ClassSel where
  | nothing : ClassSel
  | str (s : String) : ClassSel
  | alts (l : List String) : ClassSel
  | required (l : List String) : ClassSel

/-- Python truthiness of a class selector argument. -/
def sel_truthy : ClassSel → Bool
  | ClassSel.nothing => false
  | ClassSel.str s => s ≠ ""
  | ClassSel.alts l => !l.isEmpty
  | ClassSel.required _ => true

/-- Python truthiness of an optional string argument. -/
def opt_truthy (o : Option String) : Bool :=
  o.getD "" ≠ ""

/-- Matching of a single element against a string or predicate selector. -/
def class_sel_matches (classes : List String) : ClassSel → Bool
  | ClassSel.nothing => false
  | ClassSel.str s => class_matches_str classes s
  | ClassSel.alts l => l.any (fun c => class_matches_str classes c)
  | ClassSel.required l => l.all (fun c => classes.contains c)

/-- The keyword arguments of one parse_website_for_article_links call
(one per-site rule of the scrape_websites dispatch). -/
structure SiteRule where
  source_url : String
  source : String
  article_class : ClassSel
  title_class : ClassSel
  article_html_tag : String
  title_html_tag : String
  date_html_tag : String
  time_class : Option String
  time_html_attr : Option String
  article_wrapper_class : ClassSel
  article_wrapper_html_tag : Option String
  time_tag_index : Nat

/-- An article stub dictionary as built by discovery.  Fields hold
Option values: none models a Python None value (every key is present in
the dictionaries the source builds). -/
structure Article where
  title : Option String := none
  publish_date : Option String := none
  url : Option String := none
  source_url : Option String := none
  source : Option String := none
  authors : List String := []
  pdf_url : Option String := none
  text : Option String := none
deriving DecidableEq, Repr

/-- URL normalization of the extractor, lines 474 to 480 of
news_retriever.py: hrefs starting with the literal text https pass
through; otherwise a leading dot is dropped, or else a missing leading
slash is prepended, and the result is appended to the site base URL. -/
def normalize_link_url (source_url link_url : String) : String :=
  if py_starts_with link_url "https" then link_url
  else
    let l :=
      if py_starts_with link_url "." then py_drop1 link_url
      else if !(py_starts_with link_url "/") then "/" ++ link_url
      else link_url
    source_url ++ l

/-- Container selection, lines 420 to 440: wrapper tag and class take
precedence when truthy; a list selector keeps elements with a nonempty
class list meeting any alternative; otherwise the tag is searched with
the string or predicate selector, or with no class filter at all. -/
def select_containers (soup : Html) (rule : SiteRule) : List Html :=
  let tag := if opt_truthy rule.article_wrapper_html_tag then
      rule.article_wrapper_html_tag.getD "" else rule.article_html_tag
  let cls := if sel_truthy rule.article_wrapper_class then
      rule.article_wrapper_class else rule.article_class
  if sel_truthy cls then
    match cls with
    | ClassSel.alts l =>
        (find_all_node (fun t _ _ => t == tag) soup).filter
          (fun el => !(html_classes el).isEmpty &&
            l.any (fun c => (html_classes el).contains c))
    | c => find_all_node (fun t cl _ => t == tag && class_sel_matches cl c) soup
  else find_all_node (fun t _ _ => t == tag) soup

/-- find with a list of class alternatives tried in order, first match
wins (the loops at lines 451 to 456 and 486 to 491). -/
def find_class_alternatives (root : Html) (tag : String) :
    List String → Option Html
  | [] => none
  | c :: rest =>
      match find_first (fun t cl _ => t == tag && class_matches_str cl c) root with
      | some x => some x
      | none => find_class_alternatives root tag rest

/-- find for a tag with an optional string, list or predicate selector. -/
def find_by_sel (root : Html) (tag : String) (sel : ClassSel) : Option Html :=
  if sel_truthy sel then
    match sel with
    | ClassSel.alts l => find_class_alternatives root tag l
    | c => find_first (fun t cl _ => t == tag && class_sel_matches cl c) root
  else find_first (fun t _ _ => t == tag) root

/-- The href the loop body resolves for one candidate container, lines
446 to 472; none models the two continue branches (no link element, or
link without href). -/
def container_href (rule : SiteRule) (article_tag : Html) : Option String :=
  if opt_truthy rule.article_wrapper_html_tag then
    match find_by_sel article_tag rule.article_html_tag rule.article_class with
    | some link => get_attr (html_attrs link) "href"
    | none => none
  else get_attr (html_attrs article_tag) "href"

/-- The date string taken from a machine readable attribute: the value
truncated at the first letter T, line 516 to 523. -/
def attr_date (v : String) : String :=
  String.mk (v.data.takeWhile (· ≠ Char.ofNat 84))

/-- The publish date the loop body resolves for one candidate container,
lines 500 to 545, including the quirk that a positive date tag index
switches the lookup to the visible-text branch by overwriting the time
class with a sentinel value. -/
def container_date (today : Nat) (rule : SiteRule) (article_tag : Html) :
    Option String :=
  let time_tags :=
    if opt_truthy rule.time_class then
      find_all_node (fun t cl _ => t == rule.date_html_tag &&
        class_matches_str cl (rule.time_class.getD "")) article_tag
    else find_all_node (fun t _ _ => t == rule.date_html_tag) article_tag
  match time_tags.get? rule.time_tag_index with
  | none => none
  | some tt =>
    let eff_class := if rule.time_tag_index > 0 then some "mistral" else rule.time_class
    if !(opt_truthy eff_class) then
      match rule.time_html_attr with
      | some attr =>
          if attr ≠ "" then
            match get_attr (html_attrs tt) attr with
            | some v => some (attr_date v)
            | none => none
          else none
      | none => none
    else parse_date_text today (get_text_strip tt)

/-- The stub built from one candidate container, or none for the skip
branches of the loop (lines 446 to 556 without the final known-URL
filter). -/
def extract_stub (today : Nat) (rule : SiteRule) (article_tag : Html) :
    Option Article :=
  match container_href rule article_tag with
  | none => none
  | some href =>
    let link_url := normalize_link_url rule.source_url href
    let title := (find_by_sel article_tag rule.title_html_tag rule.title_class).map
      get_text_strip
    some { title := title,
           publish_date := container_date today rule article_tag,
           url := some link_url,
           source_url := some rule.source_url,
           source := some rule.source }

/-! ## The article record store (articles_database.py) -/

/-- One row of the articles record table. -/
structure ArticleRecord where
  url : String
  article_file_path : String
  title : Option String
  source : Option String
  publish_date : Option String
  has_text : Bool
  is_new : Bool
deriving DecidableEq, Repr

/-- The in-memory state of ArticlesDatabase: the record rows and the
docs folder path. -/
structure ArticlesDatabase where
  articles_records : List ArticleRecord
  docs_folder : String
deriving DecidableEq, Repr

/-- is_article_already_fetched, line 94: membership of the URL among
the stored url column values. -/
def records_has_url (rs : List ArticleRecord) (url : String) : Bool :=
  rs.any (fun r => r.url == url)

def is_article_already_fetched (db : ArticlesDatabase) (url : String) : Bool :=
  records_has_url db.articles_records url

/-- get_new_articles, lines 97 to 98: the tag string and the rows whose
is_new flag is set. -/
def get_new_articles (db : ArticlesDatabase) : String × List ArticleRecord :=
  ("articles_list", db.articles_records.filter (fun r => r.is_new))

/-- get_all_articles, lines 100 to 101. -/
def get_all_articles (db : ArticlesDatabase) : String × List ArticleRecord :=
  ("articles_list", db.articles_records)

/-- The reserved characters removed by safe_filename. -/
def invalid_filename_chars : List Char :=
  [Char.ofNat 60, Char.ofNat 62, Char.ofNat 58, Char.ofNat 34, Char.ofNat 47,
   Char.ofNat 92, Char.ofNat 124, Char.ofNat 63, Char.ofNat 42]

/-- Membership of a character in Python string.printable: ASCII 33 to
126, space, tab, newline, carriage return, vertical tab, form feed. -/
def is_printable (c : Char) : Bool :=
  (33 ≤ c.toNat && c.toNat ≤ 126) || c.toNat == 32 || c.toNat == 9 ||
  c.toNat == 10 || c.toNat == 13 || c.toNat == 11 || c.toNat == 12

def reserved_device_names : List (List Char) :=
  ["CON", "PRN", "AUX", "NUL",
   "COM1", "COM2", "COM3", "COM4", "COM5", "COM6", "COM7", "COM8", "COM9",
   "LPT1", "LPT2", "LPT3", "LPT4", "LPT5", "LPT6", "LPT7", "LPT8",
   "LPT9"].map String.data

/-- os.path.splitext on a separator-free name: split at the last dot,
except when every character before the last dot is itself a dot. -/
def splitext (cs : List Char) : List Char × List Char :=
  let rev := cs.reverse
  let p := rev.span (· ≠ Char.ofNat 46)
  match p.2 with
  | [] => (cs, [])
  | _ :: base_rev =>
      if base_rev.all (· = Char.ofNat 46) then (cs, [])
      else (base_rev.reverse, Char.ofNat 46 :: p.1.reverse)

/-- ASCII upper casing (str.upper on the names reachable here). -/
def chars_upper (cs : List Char) : List Char :=
  cs.map Char.toUpper

/-- safe_filename, lines 154 to 189 of articles_database.py: drop the
reserved characters, keep only characters of string.printable, replace
spaces and hyphens with underscores, suffix a reserved device stem with
an underscore, strip leading and trailing spaces and periods, and fall
back to a fixed name when nothing remains. -/
def safe_filename (filename : String) : String :=
  let cs := filename.data.filter (fun c => !(invalid_filename_chars.contains c))
  let cs := cs.filter is_printable
  let cs := py_replace1 (Char.ofNat 32) (Char.ofNat 95)
    (py_replace1 (Char.ofNat 45) (Char.ofNat 95) cs)
  let base := chars_upper (splitext cs).1
  let cs :=
    if reserved_device_names.contains base then
      if cs.contains (Char.ofNat 46) then
        (splitext cs).1 ++ [Char.ofNat 95] ++ (splitext cs).2
      else cs ++ [Char.ofNat 95]
    else cs
  let cs := py_strip_chars [Char.ofNat 32, Char.ofNat 46] cs
  if cs.isEmpty then "unnamed_file" else String.mk cs

/-- Python string formatting of an optional dictionary value (None
prints as the word None). -/
def fstr (o : Option String) : String :=
  match o with
  | none => "None"
  | some s => s

/-- The artifact path computed by download_pdf_from_url (the text file
the fetched PDF is converted to), lines 103 to 127. -/
def download_pdf_path (docs_folder : String) (a : Article) : String :=
  docs_folder ++ "/" ++
    (safe_filename (fstr a.title ++ "_" ++ fstr a.source ++ "_" ++
      fstr a.publish_date)).toLower ++ ".txt"

/-- The artifact path computed by save_article_to_txt, lines 139 to
152. -/
def save_txt_path (docs_folder : String) (a : Article) : String :=
  docs_folder ++ "/" ++
    (safe_filename (fstr a.title ++ "_" ++ fstr a.source ++ "_" ++
      fstr a.publish_date ++ ".txt")).toLower

/-- The row appended for one inserted stub, lines 59 to 82. -/
def make_record (docs_folder : String) (a : Article) : ArticleRecord :=
  { url := a.url.getD "",
    article_file_path :=
      if opt_truthy a.pdf_url then download_pdf_path docs_folder a
      else save_txt_path docs_folder a,
    title := a.title,
    source := a.source,
    publish_date := a.publish_date,
    has_text := opt_truthy a.text,
    is_new := true }

/-- Clearing of the is_new column before a batch, line 45. -/
def clear_is_new (r : ArticleRecord) : ArticleRecord :=
  { r with is_new := false }

/-- The body of the update loop for one stub, lines 48 to 84: skip on a
falsy url, skip when the url is already present in the (growing) record
table, otherwise append the new row and count it. -/
def update_step (docs_folder : String) (acc : List ArticleRecord × Nat)
    (a : Article) : List ArticleRecord × Nat :=
  let url := a.url.getD ""
  if url == "" then acc
  else if records_has_url acc.1 url then acc
  else (acc.1 ++ [make_record docs_folder a], acc.2 + 1)

/-- update, lines 43 to 92: clear is_new everywhere, fold the loop body
over the stubs, return the new state and the reported count of added
records. -/
def update (db : ArticlesDatabase) (articles : List Article) :
    ArticlesDatabase × Nat :=
  let r := articles.foldl (update_step db.docs_folder)
    (db.articles_records.map clear_is_new, 0)
  ({ db with articles_records := r.1 }, r.2)

/-- parse_website_for_article_links without the final known-URL filter:
the stubs produced from the capped candidate containers (this list does
not depend on the database). -/
def candidate_stubs (max_articles today : Nat) (soup : Html) (rule : SiteRule) :
    List Article :=
  let containers := select_containers soup rule
  (containers.take (min containers.length max_articles)).filterMap
    (extract_stub today rule)

/-- parse_website_for_article_links, lines 405 to 558: the candidate
stubs whose url is not already fetched. -/
def parse_website_for_article_links (max_articles today : Nat)
    (db : ArticlesDatabase) (soup : Html) (rule : SiteRule) : List Article :=
  (candidate_stubs max_articles today soup rule).filter
    (fun a => !(is_article_already_fetched db (a.url.getD "")))

/-- One listing page snapshot together with the rule its site uses. -/
structure ListingPage where
  soup : Html
  rule : SiteRule

/-- The discovery pass of scrape_websites restricted to the
generic-extractor sites: every page is parsed with its rule against the
same database state and the per-site lists are concatenated. -/
def discover_articles (max_articles today : Nat) (db : ArticlesDatabase)
    (pages : List ListingPage) : List Article :=
  (pages.map (fun p =>
    parse_website_for_article_links max_articles today db p.soup p.rule)).flatten

/-! ## Header-article special case (the perplexity branch of
scrape_websites, lines 308 to 336).  A find that returns nothing is
dereferenced on the next line, so it is modeled as a raised
AttributeError. -/

def PERPLEXITY_URL : String := "https://www.perplexity.ai"

def ARXIV_URL : String := "https://arxiv.org"

/-- The selector locating the featured header article on the perplexity
listing page. -/
def perplexity_header_sel (tag : String) (classes : List String)
    (_attrs : List (String × String)) : Bool :=
  tag == "div" && class_matches_str classes "framer-1qu7j16-container"

/-- The rule of the generic-extractor call of the perplexity branch. -/
def perplexity_rule : SiteRule :=
  { source_url := PERPLEXITY_URL,
    source := "perplexity_ai",
    article_class := ClassSel.str "framer-fkCik",
    title_class := ClassSel.str "framer-text",
    article_html_tag := "a",
    title_html_tag := "h4",
    date_html_tag := "p",
    time_class := some "framer-text",
    time_html_attr := none,
    article_wrapper_class := ClassSel.nothing,
    article_wrapper_html_tag := none,
    time_tag_index := 0 }

/-- The perplexity branch of scrape_websites: find the header container,
find the header link inside it, read its text and href, emit the header
stub when its URL is unknown, then find the news grid container and run
the generic extractor over it.  Every find whose None result would be
dereferenced becomes an error. -/
def scrape_perplexity (max_articles today : Nat) (db : ArticlesDatabase)
    (soup : Html) : Except String (List Article) :=
  match find_first perplexity_header_sel soup with
  | none => Except.error "AttributeError"
  | some header_article =>
    match find_first (fun t cl _ => t == "a" && class_matches_str cl "framer-text")
        header_article with
    | none => Except.error "AttributeError"
    | some header_link =>
      let header_text := get_text_strip header_link
      match get_attr (html_attrs header_link) "href" with
      | none => Except.error "TypeError"
      | some href =>
        let url := PERPLEXITY_URL ++ py_drop1 href
        let head_stubs :=
          if is_article_already_fetched db url then []
          else [{ title := some header_text,
                  publish_date := none,
                  url := some url,
                  source_url := some PERPLEXITY_URL,
                  source := some "perplexity_ai" : Article }]
        match find_first (fun t cl _ => t == "div" &&
            class_matches_str cl "framer-1pk4ise") soup with
        | none => Except.error "AttributeError"
        | some news_content =>
            Except.ok (head_stubs ++ parse_website_for_article_links
              max_articles today db news_content perplexity_rule)

/-! ## Structured abstract listing (search_arxiv, lines 560 to 623) -/

/-- re.match of the section heading pattern: three word characters,
comma, space, one or two digits, space, three word characters, space,
four digits; anchored at the start, rest of the string ignored.  Returns
the matched prefix. -/
def arxiv_date_match (cs : List Char) : Option (List Char) :=
  let is_word := fun c : Char => c.isAlphanum || c = Char.ofNat 95
  match cs with
  | a :: b :: c :: rest =>
    if is_word a && is_word b && is_word c then
      match rest with
      | d0 :: r1 =>
        if d0 = Char.ofNat 44 then
          match r1 with
          | s0 :: r2 =>
            if s0 = Char.ofNat 32 then
              let p := r2.span is_digit
              if p.1 ≠ [] && p.1.length ≤ 2 then
                match p.2 with
                | s1 :: r3 =>
                  if s1 = Char.ofNat 32 then
                    match r3 with
                    | w1 :: w2 :: w3 :: r4 =>
                      if is_word w1 && is_word w2 && is_word w3 then
                        match r4 with
                        | s2 :: r5 =>
                          if s2 = Char.ofNat 32 then
                            let q := r5.span is_digit
                            if q.1.length ≥ 4 then
                              some ([a, b, c, d0, s0] ++ p.1 ++ [s1, w1, w2, w3, s2]
                                ++ q.1.take 4)
                            else none
                          else none
                        | [] => none
                      else none
                    | _ => none
                  else none
                | [] => none
              else none
            else none
          | [] => none
        else none
      | [] => none
    else none
  | _ => none

/-- The date of one arxiv section: the h3 text is stripped, matched
against the heading pattern, and on a match parsed with strptime (whose
failure is an uncaught ValueError); a heading with no h3 is dereferenced
None. -/
def arxiv_section_date (sec : Html) : Except String (Option String) :=
  match find_first (fun t _ _ => t == "h3") sec with
  | none => Except.error "AttributeError"
  | some h3 =>
    let date_str := py_strip (get_text [] false h3)
    match arxiv_date_match date_str with
    | none => Except.ok none
    | some g =>
      match strptime_weekday_line g with
      | none => Except.error "ValueError"
      | some d => Except.ok (some (iso_of_date d))

mutual
/-- Every dt element of the document in document order, paired with its
next dd sibling (find_next_sibling). -/
def dt_with_dd_node : Html → List (Html × Option Html)
  | Html.text _ => []
  | Html.elem _ _ _ ch => dt_with_dd_list ch
def dt_with_dd_list : HtmlList → List (Html × Option Html)
  | HtmlList.nil => []
  | HtmlList.cons h t =>
      (match h with
       | Html.text _ => []
       | Html.elem tag _ _ _ =>
         if tag == "dt" then [(h, next_dd_sibling t)] else []) ++
      dt_with_dd_node h ++ dt_with_dd_list t
/-- The first following sibling that is a dd element. -/
def next_dd_sibling : HtmlList → Option Html
  | HtmlList.nil => none
  | HtmlList.cons h t =>
      match h with
      | Html.text _ => next_dd_sibling t
      | Html.elem tag _ _ _ => if tag == "dd" then some h else next_dd_sibling t
end

/-- The stub built from one dt and its optional dd, lines 581 to 621:
the abstract link and PDF link resolved against the base URL (a found
link without href raises KeyError), the title text with its six
character prefix dropped and the author list from the dd (a dd missing
either div is dereferenced None). -/
def arxiv_entry (date : Option String) (source_url : String)
    (p : Html × Option Html) : Except String Article :=
  let link := find_first (fun t _ at_ => t == "a" &&
    get_attr at_ "title" == some "Abstract") p.1
  match (match link with
         | none => Except.ok none
         | some l =>
           match get_attr (html_attrs l) "href" with
           | none => Except.error "KeyError"
           | some h => Except.ok (some (if py_starts_with h "https" then h
               else ARXIV_URL ++ h))) with
  | Except.error e => Except.error e
  | Except.ok link_url =>
    match (match find_first (fun t _ at_ => t == "a" &&
             get_attr at_ "title" == some "Download PDF") p.1 with
           | none => Except.ok none
           | some l =>
             match get_attr (html_attrs l) "href" with
             | none => Except.error "KeyError"
             | some h => Except.ok (some (if py_starts_with h "https" then h
                 else ARXIV_URL ++ h))) with
    | Except.error e => Except.error e
    | Except.ok pdf_link_url =>
      match (match p.2 with
             | none => Except.ok ((none : Option String), ([] : List String))
             | some dd =>
               match find_first (fun t cl _ => t == "div" &&
                   class_matches_str cl "list-title") dd with
               | none => Except.error "AttributeError"
               | some tdiv =>
                 match find_first (fun t cl _ => t == "div" &&
                     class_matches_str cl "list-authors") dd with
                 | none => Except.error "AttributeError"
                 | some adiv =>
                   Except.ok (some (String.mk ((get_text [] true tdiv).drop 6)),
                     (find_all_node (fun t _ _ => t == "a") adiv).map
                       (fun a => get_text_strip a))) with
      | Except.error e => Except.error e
      | Except.ok ta =>
          Except.ok { title := ta.1,
                      authors := ta.2,
                      publish_date := date,
                      url := link_url,
                      source_url := some source_url,
                      source := some "arxiv",
                      pdf_url := pdf_link_url }

/-- is_article_already_fetched applied to a possibly absent URL (a None
URL is never among the stored values). -/
def fetched_opt (db : ArticlesDatabase) (u : Option String) : Bool :=
  match u with
  | none => false
  | some s => is_article_already_fetched db s

/-- The inner dt loop of one section, lines 581 to 621: build each entry
and keep the ones whose URL is not already fetched. -/
def arxiv_scan_entries (db : ArticlesDatabase) (date : Option String)
    (source_url : String) :
    List (Html × Option Html) → Except String (List Article)
  | [] => Except.ok []
  | p :: rest =>
    match arxiv_entry date source_url p with
    | Except.error e => Except.error e
    | Except.ok a =>
      match arxiv_scan_entries db date source_url rest with
      | Except.error e => Except.error e
      | Except.ok tail =>
          Except.ok (if fetched_opt db a.url then tail else a :: tail)

/-- The outer section loop of search_arxiv: for every dl element with id
articles, parse the section date, then rescan the document-wide flat dt
list capped at max_articles_per_site. -/
def arxiv_sections_loop (max_articles : Nat) (db : ArticlesDatabase)
    (source_url : String) (soup : Html) :
    List Html → Except String (List Article)
  | [] => Except.ok []
  | sec :: rest =>
    match arxiv_section_date sec with
    | Except.error e => Except.error e
    | Except.ok date =>
      let pairs := dt_with_dd_node soup
      match arxiv_scan_entries db date source_url
          (pairs.take (min pairs.length max_articles)) with
      | Except.error e => Except.error e
      | Except.ok here =>
        match arxiv_sections_loop max_articles db source_url soup rest with
        | Except.error e => Except.error e
        | Except.ok tail => Except.ok (here ++ tail)

/-- The section selector of search_arxiv: every dl element with id
articles. -/
def arxiv_sections (soup : Html) : List Html :=
  find_all_node (fun t _ at_ => t == "dl" && get_attr at_ "id" == some "articles")
    soup

/-- search_arxiv, lines 560 to 623. -/
def search_arxiv (max_articles : Nat) (db : ArticlesDatabase) (soup : Html)
    (source_url : String) : Except String (List Article) :=
  arxiv_sections_loop max_articles db source_url soup (arxiv_sections soup)

/-! ## The article text extractor (parse_article, lines 746 to 758) -/

/-- The content element selection of parse_article: first element with
the tag, filtered by the class when one is given. -/
def find_content (soup : Html) (content_tag : String)
    (content_class : Option String) : Option Html :=
  if opt_truthy content_class then
    find_first (fun t cl _ => t == content_tag &&
      class_matches_str cl (content_class.getD "")) soup
  else find_first (fun t _ _ => t == content_tag) soup

/-- parse_article: the visible text of the first matching element joined
with single spaces, with non breaking spaces and newlines replaced by
spaces and (a vacuous replacement in the source) straight apostrophes
replaced by themselves; null when nothing matches. -/
def parse_article (soup : Html) (content_tag : String)
    (content_class : Option String) : Option String :=
  match find_content soup content_tag content_class with
  | some content => some (String.mk
      (py_replace1 (Char.ofNat 39) (Char.ofNat 39)
        (py_replace1 (Char.ofNat 10) (Char.ofNat 32)
          (py_replace1 (Char.ofNat 160) (Char.ofNat 32)
            (get_text [Char.ofNat 32] true content)))))
  | none => none

/-- Reference definition for claim C9, following the specification text:
the extractor returns null exactly when no element matches, and
otherwise the first matching element's visible text in which every non
breaking space and every newline has been replaced by a regular space. -/
def parse_article_spec (soup : Html) (content_tag : String)
    (content_class : Option String) : Option String :=
  (find_content soup content_tag content_class).map (fun content =>
    String.mk ((get_text [Char.ofNat 32] true content).map
      (fun c => if c = Char.ofNat 160 ∨ c = Char.ofNat 10 then Char.ofNat 32 else c)))

/-! ## Concrete instances used by witnesses and counterexamples -/

def sample_db : ArticlesDatabase := { articles_records := [], docs_folder := "docs" }

def sample_stub (u : String) : Article := { url := some u, text := some "t" }

def html_empty : Html := Html.elem "html" [] [] HtmlList.nil

def arxiv_cex_h3 : Html := Html.elem "h3" [] [] (hl [Html.text "latest"])

def arxiv_cex_dt : Html := Html.elem "dt" [] []
  (hl [Html.elem "a" [] [("title", "Abstract"), ("href", "/abs/1")] HtmlList.nil])

def arxiv_cex_dl1 : Html := Html.elem "dl" [] [("id", "articles")]
  (hl [arxiv_cex_h3, arxiv_cex_dt])

def arxiv_cex_dl2 : Html := Html.elem "dl" [] [("id", "articles")]
  (hl [arxiv_cex_h3])

/-- A listing document with two dated sections and one term entry. -/
def arxiv_cex_doc : Html := Html.elem "html" [] [] (hl [arxiv_cex_dl1, arxiv_cex_dl2])

/-- The stub search_arxiv extracts (twice) from arxiv_cex_doc. -/
def arxiv_cex_stub : Article :=
  { title := none,
    authors := [],
    publish_date := none,
    url := some "https://arxiv.org/abs/1",
    source_url := some "https://arxiv.org/list/cs.AI/recent",
    source := some "arxiv",
    pdf_url := none }

/-! ## Helper lemmas about the update fold -/

theorem records_has_url_iff (rs : List ArticleRecord) (u : String) :
    records_has_url rs u = true ↔ u ∈ rs.map (fun r => r.url) := by
  simp only [records_has_url, List.any_eq_true, beq_iff_eq, List.mem_map]

/-- Each step of the update loop either leaves the state unchanged or
appends one fresh record flagged new, with the nonempty url of the
stub. -/
theorem update_step_total (docs : String) (acc : List ArticleRecord × Nat)
    (a : Article) :
    update_step docs acc a = acc ∨
    (∃ rec : ArticleRecord, rec.is_new = true ∧ rec.url = a.url.getD "" ∧
      rec.url ≠ "" ∧ records_has_url acc.1 rec.url = false ∧
      update_step docs acc a = (acc.1 ++ [rec], acc.2 + 1)) := by
  by_cases h1 : (a.url.getD "" == "") = true
  · left; simp [update_step, h1]
  · by_cases h2 : records_has_url acc.1 (a.url.getD "") = true
    · left
      simp only [update_step]
      rw [if_neg (by simp [h1]), if_pos h2]
    · right
      refine ⟨make_record docs a, rfl, rfl, ?_, ?_, ?_⟩
      · show a.url.getD "" ≠ ""
        simpa using h1
      · show records_has_url acc.1 (a.url.getD "") = false
        simpa using h2
      · simp only [update_step]
        rw [if_neg (by simp [h1]), if_neg (by simp [h2])]

/-- The update fold only appends records, and every appended record is
flagged new and has a nonempty url. -/
theorem update_fold_suffix (docs : String) (articles : List Article) :
    ∀ (acc : List ArticleRecord) (n : Nat), ∃ tail : List ArticleRecord,
      (articles.foldl (update_step docs) (acc, n)).1 = acc ++ tail ∧
      ∀ r ∈ tail, r.is_new = true ∧ r.url ≠ "" := by
  induction articles with
  | nil => exact fun acc n => ⟨[], by simp, by simp⟩
  | cons a rest ih =>
    intro acc n
    rcases update_step_total docs (acc, n) a with h | ⟨rec, hnew, _, hne, _, heq⟩
    · rw [List.foldl_cons, h]; exact ih acc n
    · rw [List.foldl_cons, heq]
      rcases ih (acc ++ [rec]) (n + 1) with ⟨tail, ht1, ht2⟩
      refine ⟨rec :: tail, by simpa [List.append_assoc] using ht1, ?_⟩
      intro r hr
      rcases List.mem_cons.mp hr with rfl | hr
      · exact ⟨hnew, hne⟩
      · exact ht2 r hr

/-- Urls present before the fold are present afterwards. -/
theorem update_fold_mem_mono (docs : String) (articles : List Article)
    (acc : List ArticleRecord) (n : Nat) (u : String)
    (h : u ∈ acc.map (fun r => r.url)) :
    u ∈ ((articles.foldl (update_step docs) (acc, n)).1).map (fun r => r.url) := by
  rcases update_fold_suffix docs articles acc n with ⟨tail, h1, _⟩
  rw [h1, List.map_append]
  exact List.mem_append_left _ h

/-- After one step on a stub with nonempty url, that url is present. -/
theorem update_step_mem (docs : String) (acc : List ArticleRecord) (n : Nat)
    (a : Article) (hne : a.url.getD "" ≠ "") :
    a.url.getD "" ∈ ((update_step docs (acc, n) a).1).map (fun r => r.url) := by
  have h1 : (a.url.getD "" == "") = false := by simpa using hne
  by_cases h2 : records_has_url acc (a.url.getD "") = true
  · have hm := (records_has_url_iff acc (a.url.getD "")).mp h2
    simp only [update_step]
    rw [if_neg (by simp [h1])]
    simpa [h2] using hm
  · simp only [update_step]
    rw [if_neg (by simp [h1]), if_neg (by simpa using h2)]
    simp [make_record]

/-- The url of every processed stub with a nonempty url is present after
the fold. -/
theorem update_fold_mem_insert (docs : String) (articles : List Article) :
    ∀ (acc : List ArticleRecord) (n : Nat) (a : Article), a ∈ articles →
      a.url.getD "" ≠ "" →
      a.url.getD "" ∈ ((articles.foldl (update_step docs) (acc, n)).1).map
        (fun r => r.url) := by
  induction articles with
  | nil => intro acc n a h; cases h
  | cons b rest ih =>
    intro acc n a ha hne
    rw [List.foldl_cons]
    rcases List.mem_cons.mp ha with rfl | ha'
    · have hu := update_step_mem docs acc n a hne
      rcases update_fold_suffix docs rest (update_step docs (acc, n) a).1
        (update_step docs (acc, n) a).2 with ⟨tail, h1, _⟩
      rw [← Prod.mk.eta (p := update_step docs (acc, n) a)] at h1 ⊢
      rw [h1, List.map_append]
      exact List.mem_append_left _ hu
    · rcases update_step_total docs (acc, n) b with h | ⟨rec, _, _, _, _, heq⟩
      · rw [h]; exact ih acc n a ha' hne
      · rw [heq]; exact ih (acc ++ [rec]) (n + 1) a ha' hne

/-- A fold over stubs whose urls are all empty changes nothing. -/
theorem update_fold_skip (docs : String) (articles : List Article) :
    ∀ (acc : List ArticleRecord) (n : Nat),
      (∀ a ∈ articles, a.url.getD "" = "") →
      articles.foldl (update_step docs) (acc, n) = (acc, n) := by
  induction articles with
  | nil => intro acc n _; rfl
  | cons b rest ih =>
    intro acc n h
    have hb : b.url.getD "" = "" := h b (List.mem_cons_self b rest)
    rw [List.foldl_cons]
    have hstep : update_step docs (acc, n) b = (acc, n) := by
      simp [update_step, hb]
    rw [hstep]
    exact ih acc n (fun a ha => h a (List.mem_cons_of_mem b ha))

/-- The fold preserves distinctness of the url column. -/
theorem update_fold_nodup (docs : String) (articles : List Article) :
    ∀ (acc : List ArticleRecord) (n : Nat),
      (acc.map (fun r => r.url)).Nodup →
      (((articles.foldl (update_step docs) (acc, n)).1).map (fun r => r.url)).Nodup := by
  induction articles with
  | nil => intro acc n h; simpa using h
  | cons a rest ih =>
    intro acc n h
    rw [List.foldl_cons]
    rcases update_step_total docs (acc, n) a with he | ⟨rec, _, _, _, hfresh, heq⟩
    · rw [he]; exact ih acc n h
    · rw [heq]
      apply ih
      have hnotmem : rec.url ∉ acc.map (fun r => r.url) := by
        intro hc
        have := (records_has_url_iff acc rec.url).mpr hc
        rw [hfresh] at this
        exact Bool.noConfusion this
      simp [List.nodup_append, h, hnotmem]

/-! ## Claim theorems -/

/-- Claim C4: after update, the records that existed before the call are
exactly the first rows, carrying is_new false, and every record appended
by the call carries is_new true — so is_new holds if and only if the
record was inserted by that call. -/
theorem is_new_reset_invariant (db : ArticlesDatabase) (articles : List Article) :
    ((update db articles).1.articles_records.take db.articles_records.length
      = db.articles_records.map clear_is_new)
    ∧ (∀ r ∈ (update db articles).1.articles_records.drop
        db.articles_records.length, r.is_new = true)
    ∧ (∀ r ∈ db.articles_records.map clear_is_new, r.is_new = false) := by
  rcases update_fold_suffix db.docs_folder articles
    (db.articles_records.map clear_is_new) 0 with ⟨tail, h1, h2⟩
  have hrec : (update db articles).1.articles_records
      = db.articles_records.map clear_is_new ++ tail := by
    simpa [update] using h1
  refine ⟨?_, ?_, ?_⟩
  · rw [hrec]
    have := List.take_left (db.articles_records.map clear_is_new) tail
    rw [List.length_map] at this
    exact this
  · rw [hrec]
    have := List.drop_left (db.articles_records.map clear_is_new) tail
    rw [List.length_map] at this
    rw [this]
    exact fun r hr => (h2 r hr).1
  · intro r hr
    rcases List.mem_map.mp hr with ⟨s, _, rfl⟩
    rfl

/-- Claim C5: when the initial record urls are pairwise distinct, they
remain pairwise distinct after update on any stub list, duplicate urls
within the batch included. -/
theorem url_key_uniqueness (db : ArticlesDatabase) (articles : List Article)
    (h : (db.articles_records.map (fun r => r.url)).Nodup) :
    (((update db articles).1.articles_records).map (fun r => r.url)).Nodup := by
  have hcleared : ((db.articles_records.map clear_is_new).map
      (fun r => r.url)).Nodup := by
    rw [List.map_map]
    exact h
  have := update_fold_nodup db.docs_folder articles
    (db.articles_records.map clear_is_new) 0 hcleared
  simpa [update] using this

/-- Witness for claim C5 at a concrete store and a batch that repeats a
url. -/
theorem url_key_uniqueness_witness :
    ((sample_db.articles_records.map (fun r => r.url)).Nodup) ∧
    (((update sample_db [sample_stub "https://a", sample_stub "https://a",
        sample_stub ""]).1.articles_records).map (fun r => r.url)).Nodup :=
  ⟨by decide, url_key_uniqueness sample_db _ (by decide)⟩

/-- Claim C10: the accessors return the tag string together with the row
list — the rows with is_new set for get_new_articles, all rows for
get_all_articles. -/
theorem articles_list_accessors (db : ArticlesDatabase) :
    (get_new_articles db).1 = "articles_list" ∧
    (∀ r : ArticleRecord, r ∈ (get_new_articles db).2 ↔
      r ∈ db.articles_records ∧ r.is_new = true) ∧
    (get_all_articles db).1 = "articles_list" ∧
    (get_all_articles db).2 = db.articles_records := by
  refine ⟨rfl, ?_, rfl, rfl⟩
  intro r
  simp [get_new_articles, List.mem_filter]

/-- Claim C8 (code bug): the printable filter of safe_filename keeps the
whitespace control characters, so an input holding a newline yields a
filename that still holds that control character, against the stated
(and commented) intent of removing control characters. -/
theorem control_chars_survive_safe_filename :
    safe_filename "a\nb" = "a\nb" ∧
    Char.ofNat 10 ∈ (safe_filename "a\nb").data ∧
    (Char.ofNat 10).toNat < 32 := by
  refine ⟨rfl, ?_, by decide⟩
  decide

/-- Counterexample to claim C2: an href with the scheme http does not
pass through unchanged but is treated as relative, and an href with a
leading dot followed by no slash is concatenated without the claimed
slash insertion. -/
theorem url_normalization_counterexample :
    normalize_link_url "https://example.com" "http://example.org/x"
      = "https://example.com/http://example.org/x" ∧
    normalize_link_url "https://example.com" "http://example.org/x"
      ≠ "http://example.org/x" ∧
    normalize_link_url "https://example.com" ".c" = "https://example.comc" ∧
    normalize_link_url "https://example.com" ".c" ≠ "https://example.com/.c" ∧
    normalize_link_url "https://example.com" ".c" ≠ "https://example.com/c" := by
  refine ⟨rfl, by decide, rfl, by decide, by decide⟩

/-- Claim C2 as amended: only hrefs starting with the literal text https
pass through unchanged; otherwise a leading dot is dropped and the rest
concatenated directly, or else a missing leading slash is prepended, and
the result is appended to the base URL; the three concrete resolutions
of the claim hold. -/
theorem url_normalization_amended (base href : String) :
    (py_starts_with href "https" = true → normalize_link_url base href = href) ∧
    (py_starts_with href "https" = false → py_starts_with href "." = true →
      normalize_link_url base href = base ++ py_drop1 href) ∧
    (py_starts_with href "https" = false → py_starts_with href "." = false →
      py_starts_with href "/" = true → normalize_link_url base href = base ++ href) ∧
    (py_starts_with href "https" = false → py_starts_with href "." = false →
      py_starts_with href "/" = false →
      normalize_link_url base href = base ++ "/" ++ href) ∧
    normalize_link_url "https://example.com" "/a/b" = "https://example.com/a/b" ∧
    normalize_link_url "https://example.com" "./c" = "https://example.com/c" ∧
    normalize_link_url "https://example.com" "d" = "https://example.com/d" := by
  refine ⟨?_, ?_, ?_, ?_, rfl, rfl, rfl⟩
  · intro h1; simp [normalize_link_url, h1]
  · intro h1 h2; simp [normalize_link_url, h1, h2]
  · intro h1 h2 h3; simp [normalize_link_url, h1, h2, h3]
  · intro h1 h2 h3
    simp only [normalize_link_url, h1, h2, h3]
    simp [String.append_assoc]

/-- Witness for claim C2 as amended, discharging each conditional branch
at a concrete href. -/
theorem url_normalization_witness :
    (py_starts_with "https://x" "https" = true) ∧
    (normalize_link_url "https://b" "https://x" = "https://x") ∧
    (py_starts_with "p/q" "https" = false) ∧ (py_starts_with "p/q" "." = false) ∧
    (py_starts_with "p/q" "/" = false) ∧
    (normalize_link_url "https://b" "p/q" = "https://b" ++ "/" ++ "p/q") :=
  ⟨by decide, (url_normalization_amended "https://b" "https://x").1 (by decide),
   by decide, by decide, by decide,
   ((url_normalization_amended "https://b" "p/q").2.2.2.1 (by decide) (by decide)
     (by decide))⟩

/-- The urls recorded by update contain the cleared old urls and the url
of every processed stub whose url is nonempty. -/
theorem update_mem_url (db : ArticlesDatabase) (articles : List Article)
    (a : Article) (ha : a ∈ articles) (hne : a.url.getD "" ≠ "") :
    a.url.getD "" ∈ ((update db articles).1.articles_records).map
      (fun r => r.url) := by
  have := update_fold_mem_insert db.docs_folder articles
    (db.articles_records.map clear_is_new) 0 a ha hne
  simpa [update] using this

/-- Urls present before update are present afterwards. -/
theorem update_mem_url_mono (db : ArticlesDatabase) (articles : List Article)
    (u : String) (h : u ∈ db.articles_records.map (fun r => r.url)) :
    u ∈ ((update db articles).1.articles_records).map (fun r => r.url) := by
  have hm : u ∈ ((db.articles_records.map clear_is_new).map
      (fun r => r.url)) := by
    rw [List.map_map]
    exact h
  have := update_fold_mem_mono db.docs_folder articles
    (db.articles_records.map clear_is_new) 0 u hm
  simpa [update] using this

/-- Claim C3: discovery followed by update, then a second discovery over
the same unchanged pages against the updated store, yields an update
that reports zero added records — every stub found the second time is
either already known (and dropped at extraction time) or carries an
empty url (and is skipped by update). -/
theorem dedup_idempotence (max_articles today : Nat) (db : ArticlesDatabase)
    (pages : List ListingPage) :
    (update (update db (discover_articles max_articles today db pages)).1
      (discover_articles max_articles today
        (update db (discover_articles max_articles today db pages)).1
        pages)).2 = 0 := by
  set a1 := discover_articles max_articles today db pages with ha1
  set db1 := (update db a1).1 with hdb1
  set a2 := discover_articles max_articles today db1 pages with ha2
  have hempty : ∀ a ∈ a2, a.url.getD "" = "" := by
    intro a ha
    by_contra hne
    rcases (by simpa [ha2, discover_articles] using ha :
        ∃ p : ListingPage, p ∈ pages ∧
          a ∈ parse_website_for_article_links max_articles today db1 p.soup
            p.rule) with ⟨p, hp, hal⟩
    have hparse := List.mem_filter.mp hal
    have hcand : a ∈ candidate_stubs max_articles today p.soup p.rule := hparse.1
    have hnotf1 : is_article_already_fetched db1 (a.url.getD "") = false := by
      have := hparse.2
      simpa using this
    by_cases hf : is_article_already_fetched db (a.url.getD "") = true
    · have hmem : a.url.getD "" ∈ db.articles_records.map (fun r => r.url) :=
        (records_has_url_iff _ _).mp hf
      have : is_article_already_fetched db1 (a.url.getD "") = true :=
        (records_has_url_iff _ _).mpr (update_mem_url_mono db a1 _ hmem)
      rw [hnotf1] at this
      exact Bool.noConfusion this
    · have ha1mem : a ∈ a1 := by
        rw [ha1]
        simp only [discover_articles, List.mem_flatten]
        refine ⟨parse_website_for_article_links max_articles today db p.soup
          p.rule, List.mem_map.mpr ⟨p, hp, rfl⟩, ?_⟩
        exact List.mem_filter.mpr ⟨hcand, by simp [hf]⟩
      have : is_article_already_fetched db1 (a.url.getD "") = true :=
        (records_has_url_iff _ _).mpr (update_mem_url db a1 a ha1mem hne)
      rw [hnotf1] at this
      exact Bool.noConfusion this
  have hfold := update_fold_skip db1.docs_folder a2
    (db1.articles_records.map clear_is_new) 0 hempty
  simp [update, hfold]

/-- Counterexample to claim C6: a giorni-fa text whose day count exceeds
what a timedelta accepts, and one whose subtraction lands before
January 1 of year 1, both raise an OverflowError instead of yielding
today minus N days (today is a 2025 day count). -/
theorem date_overflow_counterexample :
    parse_date_text_checked 739609 "999999999999 giorni fa"
      = Except.error "OverflowError" ∧
    parse_date_text_checked 739609 "800000 giorni fa"
      = Except.error "OverflowError" :=
  ⟨rfl, rfl⟩

/-- Claim C6 as amended: the explicit formats are tried in the order
long-month, abbreviated-month, dotted, slashed and the first that
parses wins, normalized to year-month-day; a text containing the
relative giorni-fa phrase when no explicit format parses yields the
current date minus that many days provided the count is within the
timedelta bound and the result does not precede January 1 of year 1 —
beyond that the computation raises an uncaught OverflowError; a text
nothing parses yields null and raises nothing; and the truncating
parser used in the extractor model agrees with the checked parser on
every input where no error is raised. -/
theorem date_format_fallback_amended (today : Nat) :
    parse_date_text_checked today "January 5, 2024"
      = Except.ok (some "2024-01-05") ∧
    parse_date_text_checked today "Jan 5, 2024"
      = Except.ok (some "2024-01-05") ∧
    parse_date_text_checked today "12.31.2024"
      = Except.ok (some "2024-12-31") ∧
    parse_date_text_checked today "31/12/2024"
      = Except.ok (some "2024-12-31") ∧
    (5 + min_datetime_day ≤ today → parse_date_text_checked today "5 giorni fa"
      = Except.ok (some (iso_of_day_number (today - 5)))) ∧
    (3 + min_datetime_day ≤ today →
      parse_date_text_checked today "pubblicato 3 giorni fa"
        = Except.ok (some (iso_of_day_number (today - 3)))) ∧
    parse_date_text_checked today "not a date" = Except.ok none ∧
    (∀ (s : String) (d : Nat × Nat × Nat), strptime_long_month s.data = some d →
      parse_date_text_checked today s = Except.ok (some (iso_of_date d))) ∧
    (∀ (s : String) (n : Nat), strptime_long_month s.data = none →
      strptime_abbrev_month s.data = none → strptime_dotted s.data = none →
      strptime_slashed s.data = none → giorni_search s.data = some n →
      n ≤ max_timedelta_days → n + min_datetime_day ≤ today →
      parse_date_text_checked today s
        = Except.ok (some (iso_of_day_number (today - n)))) ∧
    (∀ (s : String) (n : Nat), strptime_long_month s.data = none →
      giorni_search s.data = some n →
      (max_timedelta_days < n ∨ today < n + min_datetime_day) →
      parse_date_text_checked today s = Except.error "OverflowError") ∧
    (∀ s : String, strptime_long_month s.data = none →
      strptime_abbrev_month s.data = none → strptime_dotted s.data = none →
      strptime_slashed s.data = none → giorni_search s.data = none →
      parse_date_text_checked today s = Except.ok none) ∧
    (∀ (s : String) (r : Option String),
      parse_date_text_checked today s = Except.ok r →
      parse_date_text today s = r) := by
  have hlong : ∀ (s : String) (d : Nat × Nat × Nat),
      strptime_long_month s.data = some d →
      parse_date_text_checked today s = Except.ok (some (iso_of_date d)) := by
    intro s d h
    simp [parse_date_text_checked, strptime_chain_checked, h]
  have hgiorni : ∀ (s : String) (n : Nat), strptime_long_month s.data = none →
      giorni_search s.data = some n → n ≤ max_timedelta_days →
      n + min_datetime_day ≤ today →
      parse_date_text_checked today s
        = Except.ok (some (iso_of_day_number (today - n))) := by
    intro s n h1 h5 hb1 hb2
    simp only [parse_date_text_checked, strptime_chain_checked, h1, h5]
    rw [if_neg]
    simp only [max_timedelta_days, min_datetime_day] at hb1 hb2 ⊢
    omega
  have hover : ∀ (s : String) (n : Nat), strptime_long_month s.data = none →
      giorni_search s.data = some n →
      (max_timedelta_days < n ∨ today < n + min_datetime_day) →
      parse_date_text_checked today s = Except.error "OverflowError" := by
    intro s n h1 h5 hb
    simp only [parse_date_text_checked, strptime_chain_checked, h1, h5]
    rw [if_pos hb]
  have hnone : ∀ s : String, strptime_long_month s.data = none →
      strptime_abbrev_month s.data = none → strptime_dotted s.data = none →
      strptime_slashed s.data = none → giorni_search s.data = none →
      parse_date_text_checked today s = Except.ok none := by
    intro s h1 h2 h3 h4 h5
    simp [parse_date_text_checked, strptime_chain_checked, h1, h2, h3, h4, h5]
  have hagree : ∀ (fmts : List (List Char → Option (Nat × Nat × Nat)))
      (cs : List Char) (r : Option String),
      strptime_chain_checked today cs fmts = Except.ok r →
      strptime_chain today cs fmts = r := by
    intro fmts
    induction fmts with
    | nil =>
      intro cs r h
      simp only [strptime_chain_checked] at h
      cases h
      rfl
    | cons f rest ih =>
      intro cs r h
      simp only [strptime_chain_checked] at h
      simp only [strptime_chain]
      cases hf : f cs with
      | some d =>
        rw [hf] at h
        dsimp only at h
        cases h
        rfl
      | none =>
        rw [hf] at h
        dsimp only at h
        cases hg : giorni_search cs with
        | some n =>
          rw [hg] at h
          dsimp only at h
          by_cases hc : max_timedelta_days < n ∨ today < n + min_datetime_day
          · rw [if_pos hc] at h
            cases h
          · rw [if_neg hc] at h
            cases h
            rfl
        | none =>
          rw [hg] at h
          dsimp only at h
          exact ih cs r h
  refine ⟨rfl, rfl, rfl, rfl, ?_, ?_, rfl, hlong, ?_, hover, hnone, ?_⟩
  · intro h
    exact hgiorni "5 giorni fa" 5 rfl rfl (by decide) h
  · intro h
    exact hgiorni "pubblicato 3 giorni fa" 3 rfl rfl (by decide) h
  · intro s n h1 h2 h3 h4 h5 hb1 hb2
    exact hgiorni s n h1 h5 hb1 hb2
  · intro s r h
    exact hagree _ s.data r h

/-- Witness for claim C6 as amended, discharging every conditional
clause at concrete date texts and a concrete 2025 day count. -/
theorem date_format_fallback_amended_witness :
    ((5 + min_datetime_day : Nat) ≤ 739609) ∧
    (parse_date_text_checked 739609 "5 giorni fa"
      = Except.ok (some (iso_of_day_number (739609 - 5)))) ∧
    (strptime_long_month "March 1, 2020".data = some (2020, 3, 1)) ∧
    (parse_date_text_checked 739609 "March 1, 2020"
      = Except.ok (some (iso_of_date (2020, 3, 1)))) ∧
    (strptime_long_month "7000000000 giorni fa".data = none) ∧
    (giorni_search "7000000000 giorni fa".data = some 7000000000) ∧
    ((max_timedelta_days : Nat) < 7000000000 ∨
      (739609 : Nat) < 7000000000 + min_datetime_day) ∧
    (parse_date_text_checked 739609 "7000000000 giorni fa"
      = Except.error "OverflowError") ∧
    (parse_date_text_checked 739609 "zzz" = Except.ok none) ∧
    (parse_date_text 739609 "zzz" = none) :=
  ⟨by decide,
   (date_format_fallback_amended 739609).2.2.2.2.1 (by decide),
   by decide,
   (date_format_fallback_amended 739609).2.2.2.2.2.2.2.1 "March 1, 2020"
     (2020, 3, 1) (by decide),
   by decide, by decide, by decide,
   (date_format_fallback_amended 739609).2.2.2.2.2.2.2.2.2.1
     "7000000000 giorni fa" 7000000000 (by decide) (by decide) (by decide),
   (date_format_fallback_amended 739609).2.2.2.2.2.2.2.2.2.2.1 "zzz"
     (by decide) (by decide) (by decide) (by decide) (by decide),
   (date_format_fallback_amended 739609).2.2.2.2.2.2.2.2.2.2.2 "zzz" none
     ((date_format_fallback_amended 739609).2.2.2.2.2.2.2.2.2.2.1 "zzz"
       (by decide) (by decide) (by decide) (by decide) (by decide))⟩

/-- Claim C9: the text extractor returns null exactly when no element
matches the tag (and class, when given), and otherwise returns the first
matching element's visible text with every non breaking space and every
newline replaced by a regular space (the apostrophe replacement of the
source is the identity). -/
theorem parse_article_normalization (soup : Html) (content_tag : String)
    (content_class : Option String) :
    parse_article soup content_tag content_class
      = parse_article_spec soup content_tag content_class ∧
    ((parse_article soup content_tag content_class).isNone ↔
      (find_content soup content_tag content_class).isNone) := by
  have key : ∀ cs : List Char,
      py_replace1 (Char.ofNat 39) (Char.ofNat 39)
        (py_replace1 (Char.ofNat 10) (Char.ofNat 32)
          (py_replace1 (Char.ofNat 160) (Char.ofNat 32) cs))
      = cs.map (fun c => if c = Char.ofNat 160 ∨ c = Char.ofNat 10 then
          Char.ofNat 32 else c) := by
    intro cs
    simp only [py_replace1, List.map_map]
    apply List.map_congr_left
    intro c _
    by_cases h1 : c = Char.ofNat 160
    · simp [h1, Function.comp]
    · by_cases h2 : c = Char.ofNat 10
      · simp [h1, h2, Function.comp]
      · by_cases h3 : c = Char.ofNat 39
        · simp [h1, h2, h3, Function.comp]
        · simp [h1, h2, h3, Function.comp]
  constructor
  · unfold parse_article parse_article_spec
    cases find_content soup content_tag content_class with
    | none => rfl
    | some content => simp [key]
  · unfold parse_article
    cases find_content soup content_tag content_class with
    | none => simp
    | some content => simp

/-- Claim C1 as amended: for the generic extractor a container selector
that finds nothing yields the empty stub list (and the extractor is a
total function, so it never raises), while in the header-article special
case the find that locates the header container raises an attribute
error when it finds nothing. -/
theorem selector_mismatch_amended :
    (∀ (max_articles today : Nat) (db : ArticlesDatabase) (soup : Html)
      (rule : SiteRule), select_containers soup rule = [] →
      parse_website_for_article_links max_articles today db soup rule = []) ∧
    (∀ (max_articles today : Nat) (db : ArticlesDatabase) (soup : Html),
      find_first perplexity_header_sel soup = none →
      scrape_perplexity max_articles today db soup
        = Except.error "AttributeError") := by
  constructor
  · intro m t db soup rule h
    simp [parse_website_for_article_links, candidate_stubs, h]
  · intro m t db soup h
    simp [scrape_perplexity, h]

/-- Counterexample to claim C1: on an empty listing page the header
selector of the perplexity branch finds nothing and the scrape raises an
attribute error instead of recovering. -/
theorem selector_mismatch_counterexample :
    scrape_perplexity 20 0 sample_db html_empty
      = Except.error "AttributeError" := rfl

/-- Witness for claim C1 as amended at a concrete empty page. -/
theorem selector_mismatch_witness :
    (select_containers html_empty perplexity_rule = []) ∧
    (parse_website_for_article_links 20 0 sample_db html_empty perplexity_rule
      = []) ∧
    (find_first perplexity_header_sel (Html.text "x") = none) ∧
    (scrape_perplexity 20 0 sample_db (Html.text "x")
      = Except.error "AttributeError") :=
  ⟨rfl,
   selector_mismatch_amended.1 20 0 sample_db html_empty perplexity_rule rfl,
   rfl,
   selector_mismatch_amended.2 20 0 sample_db (Html.text "x") rfl⟩

/-- The inner dt loop of one arxiv section keeps at most one stub per
scanned pair. -/
theorem arxiv_scan_entries_length (db : ArticlesDatabase) (date : Option String)
    (source_url : String) :
    ∀ (pairs : List (Html × Option Html)) (res : List Article),
      arxiv_scan_entries db date source_url pairs = Except.ok res →
      res.length ≤ pairs.length := by
  intro pairs
  induction pairs with
  | nil =>
    intro res h
    simp only [arxiv_scan_entries] at h
    cases h
    simp
  | cons p rest ih =>
    intro res h
    simp only [arxiv_scan_entries] at h
    cases he : arxiv_entry date source_url p with
    | error e => rw [he] at h; cases h
    | ok a =>
      rw [he] at h
      cases ht : arxiv_scan_entries db date source_url rest with
      | error e => rw [ht] at h; cases h
      | ok tail =>
        rw [ht] at h
        cases h
        have htail := ih tail ht
        by_cases hf : fetched_opt db a.url = true
        · simp only [hf, if_pos]
          exact Nat.le_succ_of_le htail
        · rw [if_neg hf]
          simpa using htail

/-- The outer section loop emits at most one capped flat scan per
section. -/
theorem arxiv_sections_loop_length (max_articles : Nat) (db : ArticlesDatabase)
    (source_url : String) (soup : Html) :
    ∀ (secs : List Html) (res : List Article),
      arxiv_sections_loop max_articles db source_url soup secs = Except.ok res →
      res.length ≤ secs.length * min (dt_with_dd_node soup).length max_articles := by
  intro secs
  induction secs with
  | nil =>
    intro res h
    simp only [arxiv_sections_loop] at h
    cases h
    simp
  | cons sec rest ih =>
    intro res h
    simp only [arxiv_sections_loop] at h
    cases hd : arxiv_section_date sec with
    | error e => rw [hd] at h; cases h
    | ok date =>
      rw [hd] at h
      dsimp only at h
      cases hs : arxiv_scan_entries db date source_url
          ((dt_with_dd_node soup).take
            (min (dt_with_dd_node soup).length max_articles)) with
      | error e => rw [hs] at h; cases h
      | ok here =>
        rw [hs] at h
        cases ht : arxiv_sections_loop max_articles db source_url soup rest with
        | error e => rw [ht] at h; cases h
        | ok tail =>
          rw [ht] at h
          cases h
          have h1 := arxiv_scan_entries_length db date source_url _ here hs
          rw [List.length_take] at h1
          have h2 : here.length ≤ min (dt_with_dd_node soup).length
              max_articles := by
            calc here.length
                ≤ min (min (dt_with_dd_node soup).length max_articles)
                    (dt_with_dd_node soup).length := h1
              _ = min (dt_with_dd_node soup).length max_articles := by
                  exact Nat.min_eq_left (Nat.min_le_left _ _)
          have h3 := ih tail ht
          simp only [List.length_append, List.length_cons, Nat.succ_mul]
          omega

/-- Claim C7 as amended: each dated section rescans the document-wide
flat dt list capped at max_articles_per_site, so a listing document with
k dated sections emits up to k times the capped count, and the at most
max_articles_per_site bound holds for documents with at most one dated
section. -/
theorem arxiv_cap_amended (max_articles : Nat) (db : ArticlesDatabase)
    (soup : Html) (source_url : String) (arts : List Article)
    (h : search_arxiv max_articles db soup source_url = Except.ok arts) :
    arts.length ≤ (arxiv_sections soup).length *
      min (dt_with_dd_node soup).length max_articles ∧
    ((arxiv_sections soup).length ≤ 1 → arts.length ≤ max_articles) := by
  have h1 := arxiv_sections_loop_length max_articles db source_url soup
    (arxiv_sections soup) arts h
  refine ⟨h1, ?_⟩
  intro hle
  calc arts.length
      ≤ (arxiv_sections soup).length *
          min (dt_with_dd_node soup).length max_articles := h1
    _ ≤ 1 * min (dt_with_dd_node soup).length max_articles :=
        Nat.mul_le_mul_right _ hle
    _ = min (dt_with_dd_node soup).length max_articles := Nat.one_mul _
    _ ≤ max_articles := Nat.min_le_right _ _

/-- Counterexample to claim C7: a listing document with two dated
sections and a single term entry, with the cap set to one, yields two
stubs — more than max_articles_per_site in total. -/
theorem arxiv_cap_counterexample :
    search_arxiv 1 sample_db arxiv_cex_doc "https://arxiv.org/list/cs.AI/recent"
      = Except.ok [arxiv_cex_stub, arxiv_cex_stub] ∧
    ¬ ((2 : Nat) ≤ 1) :=
  ⟨rfl, by decide⟩

/-- Witness for claim C7 as amended at the concrete two-section
document. -/
theorem arxiv_cap_witness :
    (search_arxiv 1 sample_db arxiv_cex_doc "https://arxiv.org/list/cs.AI/recent"
      = Except.ok [arxiv_cex_stub, arxiv_cex_stub]) ∧
    ([arxiv_cex_stub, arxiv_cex_stub].length ≤ (arxiv_sections arxiv_cex_doc).length *
      min (dt_with_dd_node arxiv_cex_doc).length 1) :=
  ⟨rfl,
   (arxiv_cap_amended 1 sample_db arxiv_cex_doc "https://arxiv.org/list/cs.AI/recent"
     [arxiv_cex_stub, arxiv_cex_stub] rfl).1⟩

end NewsAgent
